import Mathlib

/-!
# Shallow embedding of the container-tracking application core

This file embeds the data-access and form logic of the container tracking
web application: the `containers_stats_view` aggregation (SQL migration),
the `fetchContainers` list query builder (search filter, sort clause,
offset/limit pagination), the client and container creation flows with
their duplicate-key handling, the zod form schemas, the operator access
check of the detail page, and the occupancy computation of the container
card.  Machine reals of the source (SQL numeric, JS number) are embedded
as rationals; nullable columns as `Option`; the remote insert endpoints
consumed by the app are modelled from the specification where their DDL
is not part of the repository.
-/

namespace ContainerApp

/-! ## Strings: case-insensitive containment (SQL ILIKE with percent wildcards) -/

/-- Lower-case folding of a character list, modelling the case folding done by
SQL `ILIKE` and JS `toLowerCase`. -/
def lowerChars (s : List Char) : List Char := s.map Char.toLower

/-- Whether the second list occurs at the start of the first. -/
def startsWith : List Char → List Char → Bool
  | _, [] => true
  | [], _ :: _ => false
  | a :: as, b :: bs => a == b && startsWith as bs

/-- Whether `nee` occurs contiguously somewhere inside the second list. -/
def hasSub (nee : List Char) : List Char → Bool
  | [] => startsWith [] nee
  | a :: t => startsWith (a :: t) nee || hasSub nee t

/-- Literal case-insensitive substring containment — the reading asserted by
the specification ("rows where container number OR client name
case-insensitively contains the search string"), kept for comparison with the
query's actual ILIKE pattern matching. -/
def containsCI (hay nee : String) : Bool :=
  hasSub (lowerChars nee.data) (lowerChars hay.data)

/-- All suffixes of a list, longest first, including the list itself and the
empty suffix. -/
def suffixes : List Char → List (List Char)
  | [] => [[]]
  | a :: t => (a :: t) :: suffixes t

/-- Case-insensitive character comparison: ILIKE compares the case-folded
characters. -/
def charEqCI (a c : Char) : Bool := a.toLower == c.toLower

/-- One element of a parsed LIKE pattern: a percent sign (any sequence), an
underscore (any single character), or a literal character (ordinary or
escaped). -/
inductive LikeToken where
  | anySeq
  | anyOne
  | lit (c : Char)

/-- Parse a LIKE pattern left to right: a percent sign and an underscore are
wildcards, a backslash escapes the following pattern character (`esc` records
a pending escape).  Postgres rejects a pattern ending in a bare backslash;
the patterns issued here, `'%' + search + '%'`, never do, and the case is
mapped to a literal backslash. -/
def tokenizePattern (esc : Bool) : List Char → List LikeToken
  | [] => if esc then [LikeToken.lit '\\'] else []
  | c :: ps =>
    if esc then LikeToken.lit c :: tokenizePattern false ps
    else if c == '\\' then tokenizePattern true ps
    else if c == '%' then LikeToken.anySeq :: tokenizePattern false ps
    else if c == '_' then LikeToken.anyOne :: tokenizePattern false ps
    else LikeToken.lit c :: tokenizePattern false ps

/-- Match a parsed LIKE pattern against a character list, comparing literal
characters case-insensitively as ILIKE does. -/
def tokMatch : List LikeToken → List Char → Bool
  | [], s => s.isEmpty
  | LikeToken.anySeq :: ps, s => (suffixes s).any (fun t => tokMatch ps t)
  | LikeToken.anyOne :: ps, s =>
    match s with
    | [] => false
    | _ :: t => tokMatch ps t
  | LikeToken.lit c :: ps, s =>
    match s with
    | [] => false
    | a :: t => charEqCI a c && tokMatch ps t

/-- SQL ILIKE pattern matching: percent matches any character sequence,
underscore matches exactly one character, backslash escapes the next pattern
character, and literal characters are compared case-insensitively. -/
def likeMatch (pat s : List Char) : Bool := tokMatch (tokenizePattern false pat) s

/-- Postgres `column ILIKE '%search%'` as issued by `fetchContainers`: the
raw user search string is interpolated between two percent signs, so percent
and underscore characters typed by the user act as SQL wildcards inside the
pattern. -/
def ilikeContains (hay search : String) : Bool :=
  likeMatch (('%' :: search.data) ++ ['%']) hay.data

/-- A search character with no special meaning inside a LIKE pattern: not a
percent sign, not an underscore, not a backslash. -/
def isLiteralChar (c : Char) : Bool := !(c == '%') && !(c == '_') && !(c == '\\')

/-! ## Data model rows -/

/-- A row of the `containers` base table. -/
structure ContainerRow where
  id : String
  container_number : String
  container_code : Option String
  bl_number : Option String
  start_date : Int
  status : String
  yard_location : Option String
  nominal_volume_m3 : Option ℚ
  base_cost_brl : Option ℚ
  client_id : String
  container_type : String
deriving DecidableEq

/-- A row of the `clients` table (as written by client creation). -/
structure ClientRow where
  name : String
  fantasy_name : Option String
  tax_id : String
  email : Option String
  phone : Option String
  address : Option String
  status : String
deriving DecidableEq

/-- A row of the `container_types` table. -/
structure ContainerTypeRow where
  code : String
  name : String
  default_base_cost_brl : Option ℚ
deriving DecidableEq

/-- A row of the `inventory` table. -/
structure InventoryItem where
  container_id : String
  sku : String
  product_name : String
  current_quantity : ℚ
  total_volume_m3 : ℚ
  unit_gross_weight_kg : ℚ
deriving DecidableEq

/-! ## The aggregation view `containers_stats_view` -/

/-- SQL `SUM` aggregate: `NULL` (`none`) over the empty set, else the sum. -/
def sqlSum (l : List ℚ) : Option ℚ :=
  match l with
  | [] => none
  | _ => some l.sum

/-- SQL `COALESCE(x, d)`. -/
def coalesce (x : Option ℚ) (d : ℚ) : ℚ := x.getD d

/-- The inventory rows joined to container `c` by
`LEFT JOIN inventory i ON c.id = i.container_id`. -/
def invFor (c : ContainerRow) (inv : List InventoryItem) : List InventoryItem :=
  inv.filter (fun i => i.container_id == c.id)

/-- A row of `containers_stats_view`: container columns plus the joined client
and type names and the three aggregates. -/
structure StatsRow where
  id : String
  container_number : String
  container_code : Option String
  bl_number : Option String
  start_date : Int
  status : String
  yard_location : Option String
  nominal_volume_m3 : Option ℚ
  base_cost_brl : Option ℚ
  client_id : String
  container_type : String
  client_name : Option String
  container_type_name : Option String
  items_count : ℕ
  used_volume : ℚ
  total_gross_weight : ℚ
deriving DecidableEq

/-- The view row computed for container `c`, its (left-joined, hence optional)
client and type rows, and the inventory table: `COUNT(DISTINCT i.sku)`,
`COALESCE(SUM(i.total_volume_m3), 0)` and
`COALESCE(SUM(i.unit_gross_weight_kg * i.current_quantity), 0)` grouped on the
container. -/
def viewRow (c : ContainerRow) (cl : Option ClientRow) (ct : Option ContainerTypeRow)
    (inv : List InventoryItem) : StatsRow :=
  { id := c.id
    container_number := c.container_number
    container_code := c.container_code
    bl_number := c.bl_number
    start_date := c.start_date
    status := c.status
    yard_location := c.yard_location
    nominal_volume_m3 := c.nominal_volume_m3
    base_cost_brl := c.base_cost_brl
    client_id := c.client_id
    container_type := c.container_type
    client_name := cl.map (fun x => x.name)
    container_type_name := ct.map (fun x => x.name)
    items_count := (((invFor c inv).map (fun i => i.sku)).dedup).length
    used_volume := coalesce (sqlSum ((invFor c inv).map (fun i => i.total_volume_m3))) 0
    total_gross_weight :=
      coalesce (sqlSum ((invFor c inv).map
        (fun i => i.unit_gross_weight_kg * i.current_quantity))) 0 }

/-! ## fetchContainers: search filter -/

/-- Literal containment against a nullable (left-joined) column: `NULL` never
matches. -/
def optContainsCI (hay : Option String) (nee : String) : Bool :=
  match hay with
  | none => false
  | some h => containsCI h nee

/-- ILIKE match against a nullable (left-joined) column: `NULL` never matches. -/
def optIlikeContains (hay : Option String) (search : String) : Bool :=
  match hay with
  | none => false
  | some h => ilikeContains h search

/-- The or-filter added by the view-based `fetchContainers`:
`container_number.ilike.%s%,client_name.ilike.%s%`. -/
def matchesSearch (search : String) (r : StatsRow) : Bool :=
  ilikeContains r.container_number search || optIlikeContains r.client_name search

/-- Search application of the view-based `fetchContainers`: the or-filter is
added only when the search string is truthy (non-empty). -/
def applySearch (search : String) (rows : List StatsRow) : List StatsRow :=
  if search == "" then rows else rows.filter (matchesSearch search)

/-- Search application of the base-table `fetchContainers` variant:
`ilike` on `container_number` only, again only for a non-empty search. -/
def applySearchByNumber (search : String) (rows : List ContainerRow) : List ContainerRow :=
  if search == "" then rows else rows.filter (fun r => ilikeContains r.container_number search)

/-! ## fetchContainers: sort clause -/

/-- An ordering request sent to the backend: column plus direction. -/
structure OrderSpec where
  column : String
  ascending : Bool
deriving DecidableEq

/-- The sort clause chosen by the view-based `fetchContainers`: the sort state
value `created_at` (the "Recentes" option) has no counterpart column on the
view, so it falls back to `start_date` descending, ignoring the requested
direction; every other column is ordered in the requested direction
(`ascending := sortDirection === 'asc'`). -/
def applySort (sortColumn sortDirection : String) : OrderSpec :=
  if sortColumn == "created_at" then { column := "start_date", ascending := false }
  else { column := sortColumn, ascending := sortDirection == "asc" }

/-! ## fetchContainers: pagination -/

/-- The zero-based inclusive range bounds computed by `fetchContainers`:
`from = (page - 1) * pageSize` and `to = from + pageSize - 1`. -/
def pageRange (page pageSize : ℕ) : ℕ × ℕ :=
  ((page - 1) * pageSize, (page - 1) * pageSize + pageSize - 1)

/-- Semantics of supabase `.range(from, to)`: the zero-based inclusive slice
of the ordered result set. -/
def rangeSlice {α : Type*} (l : List α) (f t : ℕ) : List α :=
  (l.drop f).take (t + 1 - f)

/-- The rows `fetchContainers` receives for a given page. -/
def pageRows {α : Type*} (page pageSize : ℕ) (l : List α) : List α :=
  rangeSlice l (pageRange page pageSize).1 (pageRange page pageSize).2

/-- The page count computed by the list screen:
`totalPages = Math.ceil(totalCount / pageSize)`. -/
def totalPages (totalCount pageSize : ℕ) : ℕ :=
  (totalCount + pageSize - 1) / pageSize

/-! ## Client creation -/

/-- Strip every non-digit character: `val.replace(/\D/g, '')`. -/
def stripNonDigits (s : String) : String := String.mk (s.data.filter Char.isDigit)

/-- The zod `clientSchema` check of the tax identifier field:
`z.string().min(14)` is evaluated on the raw form value (the masked CNPJ
string), and only then does `.transform` strip the non-digits; the result is
the stored value. -/
def parseTaxId (raw : String) : Option String :=
  if 14 ≤ raw.length then some (stripNonDigits raw) else none

/-- JS `x || null` on an optional string: `undefined` and the empty string are
falsy and collapse to null. -/
def orNullStr (x : Option String) : Option String :=
  match x with
  | none => none
  | some s => if s == "" then none else some s

/-- The form data handed to `createClient`. -/
structure CreateClientData where
  name : String
  fantasy_name : Option String
  tax_id : String
  phone : Option String
  email : Option String
  address : Option String
deriving DecidableEq

/-- Modelled from the spec: the hosted backend's insert into `clients` under
its unique constraint on the (digits-only) tax identifier — the `clients`
DDL itself is not among the repository sources; the spec states the backend
reports a unique-constraint violation as a distinguishable error code
(`23505`). -/
def dbInsertClient (db : List ClientRow) (r : ClientRow) : Except String (List ClientRow) :=
  if db.any (fun x => x.tax_id == r.tax_id) then Except.error "23505"
  else Except.ok (db ++ [r])

/-- Outcome of a client submission as surfaced to the user. -/
inductive ClientOutcome where
  | created (c : ClientRow)
  | duplicateTaxId (msg : String)
  | failed (msg : String)
deriving DecidableEq

/-- `createClient` of `useCreateClient`: strips the non-digits from the tax
identifier, builds the payload (empty optionals collapsed to null, status
`active`), inserts, and maps a `23505` duplicate-key failure to the dedicated
already-registered error, returning with no row stored. -/
def createClient (db : List ClientRow) (d : CreateClientData) :
    List ClientRow × ClientOutcome :=
  let cleanTaxId := stripNonDigits d.tax_id
  let payload : ClientRow :=
    { name := d.name
      fantasy_name := orNullStr d.fantasy_name
      tax_id := cleanTaxId
      email := orNullStr d.email
      phone := orNullStr d.phone
      address := orNullStr d.address
      status := "active" }
  match dbInsertClient db payload with
  | Except.error code =>
      if code == "23505" then
        (db, ClientOutcome.duplicateTaxId "Cliente já cadastrado com este CNPJ")
      else (db, ClientOutcome.failed code)
  | Except.ok db2 => (db2, ClientOutcome.created payload)

/-! ## Container creation -/

/-- Modelled from the spec: the hosted backend's insert into `containers`
under its unique constraint on `container_number` — the `containers` DDL is
not among the repository sources; the spec states container numbers are
unique and violations surface as the distinguishable error code `23505`. -/
def dbInsertContainer (db : List ContainerRow) (r : ContainerRow) :
    Except String (List ContainerRow) :=
  if db.any (fun x => x.container_number == r.container_number) then Except.error "23505"
  else Except.ok (db ++ [r])

/-- Outcome of a container submission as surfaced to the user. -/
inductive SubmitOutcome where
  | success
  | fieldError (field msg : String)
  | genericError (msg : String)
deriving DecidableEq

/-- `onSubmit` of `ContainerNew` / `NewContainerDialog`: an insert failure
with code `23505` becomes `form.setError('container_number', ...)` — a
field-level error on the container-number field — and the handler returns;
any other failure becomes a generic error; success stores the new row. -/
def containerOnSubmit (db : List ContainerRow) (payload : ContainerRow) :
    List ContainerRow × SubmitOutcome :=
  match dbInsertContainer db payload with
  | Except.error code =>
      if code == "23505" then
        (db, SubmitOutcome.fieldError "container_number" "Este número de contêiner já existe.")
      else (db, SubmitOutcome.genericError code)
  | Except.ok db2 => (db2, SubmitOutcome.success)

/-! ## Container form numeric normalization -/

/-- JS `x || null` on an optional number: `undefined` and `0` are falsy and
collapse to null. -/
def orNullNum (x : Option ℚ) : Option ℚ :=
  match x with
  | none => none
  | some v => if v = 0 then none else some v

/-- The validated numeric fields of the full-page container form
(`ContainerNew`), where all three are optional. -/
structure PageFormNumbers where
  measurement_day : Option ℚ
  nominal_volume_m3 : Option ℚ
  base_cost_brl : Option ℚ
deriving DecidableEq

/-- The validated numeric fields of the dialog container form
(`NewContainerDialog`), where the base cost is a required field
(`z.coerce.number().min(0)`). -/
structure DialogFormNumbers where
  measurement_day : Option ℚ
  nominal_volume_m3 : Option ℚ
  base_cost_brl : ℚ
deriving DecidableEq

/-- The numeric fields of the insert payload (`null` = absent). -/
structure PayloadNumbers where
  measurement_day : Option ℚ
  nominal_volume_m3 : Option ℚ
  base_cost_brl : Option ℚ
deriving DecidableEq

/-- Numeric normalization in `ContainerNew.onSubmit`: each of the three
optional numeric fields is sent as `data.x || null`. -/
def containerNewPayloadNumbers (d : PageFormNumbers) : PayloadNumbers :=
  { measurement_day := orNullNum d.measurement_day
    nominal_volume_m3 := orNullNum d.nominal_volume_m3
    base_cost_brl := orNullNum d.base_cost_brl }

/-- Numeric normalization in `NewContainerDialog.onSubmit`: measurement day
and nominal volume are sent as `data.x || null`, while the required base cost
is spread into the payload unchanged. -/
def dialogPayloadNumbers (d : DialogFormNumbers) : PayloadNumbers :=
  { measurement_day := orNullNum d.measurement_day
    nominal_volume_m3 := orNullNum d.nominal_volume_m3
    base_cost_brl := some d.base_cost_brl }

/-! ## Container detail access check -/

/-- The requesting identity: its role and its assigned client. -/
structure UserCtx where
  role : String
  client_id : String
deriving DecidableEq

/-- The single container record fetched by the detail page. -/
structure FetchedContainer where
  id : String
  client_id : String
  client_name : Option String
deriving DecidableEq

/-- The screen state produced by `fetchDetails`. -/
structure DetailsState where
  container : Option FetchedContainer
  inventory : List InventoryItem
  events : List String
  toasts : List String
  navigatedTo : Option String
deriving DecidableEq

/-- `fetchDetails` of `ContainerDetails`: after fetching the single container
record, an operator whose assigned client differs from the record's client is
denied — the record is discarded (never stored), an error toast is shown and
the user is redirected to the container list; only otherwise are the record
and its inventory and events stored. -/
def fetchDetails (user : UserCtx) (c : FetchedContainer)
    (inv : List InventoryItem) (evs : List String) : DetailsState :=
  if user.role == "operator" && c.client_id != user.client_id then
    { container := none
      inventory := []
      events := []
      toasts := ["Acesso negado a este contêiner"]
      navigatedTo := some "/containers" }
  else
    { container := some c
      inventory := inv
      events := evs
      toasts := []
      navigatedTo := none }

/-! ## Container card occupancy -/

/-- The occupancy computed by `ContainerCard`:
`nominalVolume = nominal_volume_m3 || 0` and
`occupancyPercent = nominalVolume > 0 ? used_volume / nominalVolume * 100 : 0`. -/
def occupancyPercent (nominal_volume_m3 : Option ℚ) (used_volume : ℚ) : ℚ :=
  let nominalVolume := coalesce nominal_volume_m3 0
  if nominalVolume > 0 then used_volume / nominalVolume * 100 else 0

/-! ## Helper lemmas -/

lemma orNullNum_eq_none_iff (x : Option ℚ) :
    orNullNum x = none ↔ x = none ∨ x = some 0 := by
  cases x with
  | none => simp [orNullNum]
  | some v => by_cases hv : v = 0 <;> simp [orNullNum, hv]

lemma orNullNum_ne_some_zero (x : Option ℚ) : orNullNum x ≠ some 0 := by
  cases x with
  | none => simp [orNullNum]
  | some v => by_cases hv : v = 0 <;> simp [orNullNum, hv]

lemma pageRows_one {α : Type*} (S : ℕ) (hS : 1 ≤ S) (l : List α) :
    pageRows 1 S l = l.take S := by
  simp [pageRows, pageRange, rangeSlice, Nat.sub_add_cancel hS]

lemma pageRows_succ {α : Type*} (S p : ℕ) (hS : 1 ≤ S) (hp : 1 ≤ p) (l : List α) :
    pageRows (p + 1) S l = pageRows p S (l.drop S) := by
  unfold pageRows pageRange rangeSlice
  have h1 : p + 1 - 1 = p := by omega
  have h2 : S + (p - 1) * S = p * S := by
    have hp1 : 1 + (p - 1) = p := by omega
    calc S + (p - 1) * S = (1 + (p - 1)) * S := by ring
      _ = p * S := by rw [hp1]
  have h3 : ∀ a : ℕ, a + S - 1 + 1 - a = S := fun a => by omega
  rw [h1, List.drop_drop, h2, h3, h3]

lemma length_eq_zero_of_totalPages_eq_zero (S len : ℕ) (hS : 1 ≤ S)
    (h : totalPages len S = 0) : len = 0 := by
  unfold totalPages at h
  rcases Nat.eq_zero_or_pos len with h0 | h1
  · exact h0
  · exfalso
    have := (Nat.one_le_div_iff hS).mpr (show S ≤ len + S - 1 by omega)
    omega

lemma totalPages_drop {α : Type*} (S n : ℕ) (hS : 1 ≤ S) (l : List α)
    (hlen : 1 ≤ l.length) (h : totalPages l.length S = n + 1) :
    totalPages (l.drop S).length S = n := by
  rw [List.length_drop]
  unfold totalPages at h ⊢
  have hrw : l.length + S - 1 = (l.length - 1) + S := by omega
  rw [hrw, Nat.add_div_right _ hS] at h
  have h2 : (l.length - 1) / S = n := by omega
  by_cases hls : l.length ≤ S
  · have hz : l.length - S = 0 := by omega
    rw [hz]
    have hn : n = 0 := by
      rw [← h2]
      exact Nat.div_eq_of_lt (by omega)
    rw [hn]
    exact Nat.div_eq_of_lt (by omega)
  · have hrw2 : l.length - S + S - 1 = (l.length - 1 - S) + S := by omega
    have hc : l.length - 1 - S + S = l.length - 1 := by omega
    have h3 : (l.length - 1 - S + S) / S = n := by rw [hc]; exact h2
    rw [Nat.add_div_right _ hS] at h3
    rw [hrw2, Nat.add_div_right _ hS]
    exact h3

lemma pages_flatten {α : Type*} (S : ℕ) (hS : 1 ≤ S) :
    ∀ (n : ℕ) (l : List α), totalPages l.length S = n →
      ((List.range n).map (fun i => pageRows (i + 1) S l)).flatten = l := by
  intro n
  induction n with
  | zero =>
      intro l h
      have hlen : l.length = 0 := length_eq_zero_of_totalPages_eq_zero S l.length hS h
      have hnil : l = [] := List.eq_nil_of_length_eq_zero hlen
      simp [hnil]
  | succ n ih =>
      intro l h
      have hlen : 1 ≤ l.length := by
        by_contra hc
        have h0 : l.length = 0 := by omega
        unfold totalPages at h
        rw [h0] at h
        have hz : (0 + S - 1) / S = 0 := Nat.div_eq_of_lt (by omega)
        omega
      have hkey : totalPages (l.drop S).length S = n := totalPages_drop S n hS l hlen h
      rw [List.range_succ_eq_map, List.map_cons, List.flatten_cons, List.map_map]
      have htail : ((List.range n).map ((fun i => pageRows (i + 1) S l) ∘ Nat.succ)) =
          (List.range n).map (fun i => pageRows (i + 1) S (l.drop S)) := by
        apply List.map_congr_left
        intro i _
        show pageRows (i + 1 + 1) S l = pageRows (i + 1) S (l.drop S)
        exact pageRows_succ S (i + 1) hS (by omega) l
      rw [htail, ih (l.drop S) hkey]
      show pageRows (0 + 1) S l ++ l.drop S = l
      rw [show (0 + 1 : ℕ) = 1 by rfl, pageRows_one S hS]
      exact List.take_append_drop S l

lemma pageRows_subset_take {α : Type*} (S p : ℕ) (hS : 1 ≤ S) (hp : 1 ≤ p) (l : List α) :
    ∀ x ∈ pageRows p S l, x ∈ l.take (p * S) := by
  intro x hx
  have hsplit : l.take (p * S) = l.take ((p - 1) * S) ++ (l.drop ((p - 1) * S)).take S := by
    have hmul : (p - 1) * S + S = p * S := by
      have hp1 : (p - 1) + 1 = p := by omega
      calc (p - 1) * S + S = ((p - 1) + 1) * S := by ring
        _ = p * S := by rw [hp1]
    rw [← hmul, List.take_add]
  rw [hsplit]
  unfold pageRows pageRange rangeSlice at hx
  have h3 : ∀ a : ℕ, a + S - 1 + 1 - a = S := fun a => by omega
  rw [h3] at hx
  exact List.mem_append_right _ hx

lemma pageRows_subset_drop {α : Type*} (S p : ℕ) (l : List α) :
    ∀ x ∈ pageRows p S l, x ∈ l.drop ((p - 1) * S) := by
  intro x hx
  unfold pageRows pageRange rangeSlice at hx
  exact List.take_subset _ _ hx

lemma pageRows_disjoint_of_lt {α : Type*} (S p q : ℕ) (hS : 1 ≤ S) (hp : 1 ≤ p)
    (hpq : p < q) (l : List α) (hnd : l.Nodup) :
    ∀ x ∈ pageRows p S l, x ∉ pageRows q S l := by
  intro x hxp hxq
  have hx1 : x ∈ l.take (p * S) := pageRows_subset_take S p hS hp l x hxp
  have hx2 : x ∈ l.drop ((q - 1) * S) := pageRows_subset_drop S q l x hxq
  have hle : p * S ≤ (q - 1) * S := mul_le_mul_right' (show p ≤ q - 1 by omega) S
  have hx1b : x ∈ l.take ((q - 1) * S) := by
    have htt : l.take (p * S) = (l.take ((q - 1) * S)).take (p * S) := by
      rw [List.take_take, min_eq_left hle]
    rw [htt] at hx1
    exact List.take_subset _ _ hx1
  have hnd2 : ((l.take ((q - 1) * S)) ++ (l.drop ((q - 1) * S))).Nodup := by
    rw [List.take_append_drop]
    exact hnd
  exact (List.nodup_append.mp hnd2).2.2 hx1b hx2

lemma suffixes_any_isEmpty :
    ∀ t : List Char, (suffixes t).any (fun x => x.isEmpty) = true
  | [] => rfl
  | a :: t => by
      simp only [suffixes, List.any_cons]
      rw [suffixes_any_isEmpty t]
      simp

lemma hasSub_eq_any_startsWith (nee : List Char) :
    ∀ hay : List Char, hasSub nee hay = (suffixes hay).any (fun t => startsWith t nee)
  | [] => by simp [hasSub, suffixes, List.any_cons]
  | a :: t => by
      simp only [hasSub, suffixes, List.any_cons]
      rw [hasSub_eq_any_startsWith nee t]

lemma suffixes_map (f : Char → Char) :
    ∀ l : List Char, suffixes (l.map f) = (suffixes l).map (List.map f)
  | [] => rfl
  | a :: t => by simp [suffixes, suffixes_map f t]

lemma tokenizePattern_literal (nee : List Char) (hlit : nee.all isLiteralChar = true) :
    tokenizePattern false (nee ++ ['%']) =
      nee.map LikeToken.lit ++ [LikeToken.anySeq] := by
  induction nee with
  | nil => rfl
  | cons c nee2 ih =>
      have hc : isLiteralChar c = true := List.all_eq_true.mp hlit c (by simp)
      have hlit2 : nee2.all isLiteralChar = true := by
        rw [List.all_eq_true] at hlit ⊢
        intro x hx
        exact hlit x (by simp [hx])
      have hc1 : ¬((c == '%') = true) := by
        intro hcontra
        simp [isLiteralChar, hcontra] at hc
      have hc2 : ¬((c == '\\') = true) := by
        intro hcontra
        simp [isLiteralChar, hcontra] at hc
      have hc3 : ¬((c == '_') = true) := by
        intro hcontra
        simp [isLiteralChar, hcontra] at hc
      rw [List.cons_append]
      show tokenizePattern false (c :: (nee2 ++ ['%'])) = _
      simp only [tokenizePattern]
      rw [if_neg (by simp), if_neg hc2, if_neg hc1, if_neg hc3]
      rw [ih hlit2]
      simp

lemma tokMatch_lit_append (nee : List Char) :
    ∀ t : List Char, tokMatch (nee.map LikeToken.lit ++ [LikeToken.anySeq]) t
      = startsWith (lowerChars t) (lowerChars nee) := by
  induction nee with
  | nil =>
      intro t
      show tokMatch [LikeToken.anySeq] t = _
      simp only [tokMatch]
      rw [suffixes_any_isEmpty t]
      cases t <;> rfl
  | cons c nee2 ih =>
      intro t
      rw [List.map_cons, List.cons_append]
      cases t with
      | nil =>
          simp only [tokMatch]
          rfl
      | cons a t2 =>
          simp only [tokMatch]
          rw [ih t2]
          show (charEqCI a c && _) = startsWith (Char.toLower a :: lowerChars t2)
            (Char.toLower c :: lowerChars nee2)
          simp only [startsWith, charEqCI]

lemma ilikeContains_eq_containsCI (hay search : String)
    (hlit : search.data.all isLiteralChar = true) :
    ilikeContains hay search = containsCI hay search := by
  unfold ilikeContains likeMatch containsCI
  rw [List.cons_append]
  have htok : tokenizePattern false ('%' :: (search.data ++ ['%']))
      = LikeToken.anySeq :: tokenizePattern false (search.data ++ ['%']) := rfl
  rw [htok, tokenizePattern_literal search.data hlit]
  show (suffixes hay.data).any
      (fun t => tokMatch (search.data.map LikeToken.lit ++ [LikeToken.anySeq]) t)
    = hasSub (lowerChars search.data) (lowerChars hay.data)
  rw [hasSub_eq_any_startsWith]
  show _ = (suffixes (hay.data.map Char.toLower)).any
      (fun t => startsWith t (lowerChars search.data))
  rw [suffixes_map, List.any_map]
  have hfun : (fun t => tokMatch (search.data.map LikeToken.lit ++ [LikeToken.anySeq]) t)
      = ((fun t => startsWith t (lowerChars search.data)) ∘ List.map Char.toLower) := by
    funext t
    exact tokMatch_lit_append search.data t
  rw [hfun]

/-! ## Claim theorems -/

/-- C1: for every page `p ≥ 1` and page size `S ≥ 1`, `fetchContainers`
requests exactly the zero-based rows `(p-1)*S` through `(p-1)*S + S - 1`
(offset `(p-1)*S`, limit `S`), and together with the exact total count the
pages `1 .. ceil(T/S)` partition the ordered result set: their concatenation
is the whole list (hence the per-page row counts sum to `T`), and under a
stable sort key (duplicate-free ordered rows) no row appears on two distinct
pages. -/
theorem fetchContainers_pagination {α : Type} (p S q r : ℕ) (l : List α) (x : α)
    (_hp : 1 ≤ p) (hS : 1 ≤ S) (hnd : l.Nodup) (hq : 1 ≤ q) (hr : 1 ≤ r)
    (hqr : q ≠ r) (hx : x ∈ pageRows q S l) :
    (pageRange p S).1 = (p - 1) * S
    ∧ (pageRange p S).2 + 1 - (pageRange p S).1 = S
    ∧ ((List.range (totalPages l.length S)).map (fun i => pageRows (i + 1) S l)).flatten = l
    ∧ ((List.range (totalPages l.length S)).map
        (fun i => (pageRows (i + 1) S l).length)).sum = l.length
    ∧ x ∉ pageRows r S l := by
  have hflat := pages_flatten S hS (totalPages l.length S) l rfl
  refine ⟨rfl, ?_, hflat, ?_, ?_⟩
  · show (p - 1) * S + S - 1 + 1 - (p - 1) * S = S
    have h3 : ∀ a : ℕ, a + S - 1 + 1 - a = S := fun a => by omega
    exact h3 _
  · have hlen := congrArg List.length hflat
    rw [List.length_flatten, List.map_map] at hlen
    exact hlen
  · rcases Nat.lt_or_ge q r with hlt | hge
    · exact pageRows_disjoint_of_lt S q r hS hq hlt l hnd x hx
    · have hlt2 : r < q := by omega
      intro hxr
      exact pageRows_disjoint_of_lt S r q hS hr hlt2 l hnd x hxr hx

/-- C1 witness: page 3 of size 10 over the 25-element result set 0..24,
with pages 1 and 2 disjoint at the row 5. -/
theorem fetchContainers_pagination_witness :
    (pageRange 3 10).1 = (3 - 1) * 10
    ∧ (pageRange 3 10).2 + 1 - (pageRange 3 10).1 = 10
    ∧ ((List.range (totalPages (List.range 25).length 10)).map
        (fun i => pageRows (i + 1) 10 (List.range 25))).flatten = List.range 25
    ∧ ((List.range (totalPages (List.range 25).length 10)).map
        (fun i => (pageRows (i + 1) 10 (List.range 25)).length)).sum
        = (List.range 25).length
    ∧ 5 ∉ pageRows 2 10 (List.range 25) :=
  fetchContainers_pagination 3 10 1 2 (List.range 25) 5 (by decide) (by decide)
    (List.nodup_range 25) (by decide) (by decide) (by decide) (by decide)

/-- C2: a container whose left join picks up zero inventory rows gets
`items_count = 0`, `used_volume = 0` and `total_gross_weight = 0` from
`containers_stats_view` — the `COALESCE`s turn the `NULL` sums into `0` —
and for any container the view's gross weight equals the sum over its
inventory of unit gross weight times current quantity. -/
theorem containers_stats_view_zero_inventory (c c2 : ContainerRow)
    (cl : Option ClientRow) (ct : Option ContainerTypeRow)
    (inv inv2 : List InventoryItem) (h : invFor c inv = []) :
    (viewRow c cl ct inv).items_count = 0
    ∧ (viewRow c cl ct inv).used_volume = 0
    ∧ (viewRow c cl ct inv).total_gross_weight = 0
    ∧ (viewRow c2 cl ct inv2).total_gross_weight =
        ((invFor c2 inv2).map (fun i => i.unit_gross_weight_kg * i.current_quantity)).sum := by
  refine ⟨?_, ?_, ?_, ?_⟩
  · simp [viewRow, h]
  · simp [viewRow, h, sqlSum, coalesce]
  · simp [viewRow, h, sqlSum, coalesce]
  · simp only [viewRow]
    cases hm : (invFor c2 inv2).map (fun i => i.unit_gross_weight_kg * i.current_quantity) with
    | nil => simp [sqlSum, coalesce]
    | cons a t => simp [sqlSum, coalesce]

/-- C2 witness: a concrete container with no inventory rows, checked against
a second container that owns one inventory row. -/
theorem containers_stats_view_zero_inventory_witness :
    (viewRow
        { id := "c1", container_number := "MSKU1234567", container_code := none,
          bl_number := none, start_date := 0, status := "active", yard_location := none,
          nominal_volume_m3 := none, base_cost_brl := none, client_id := "cl1",
          container_type := "40HC" }
        none none []).items_count = 0
    ∧ (viewRow
        { id := "c1", container_number := "MSKU1234567", container_code := none,
          bl_number := none, start_date := 0, status := "active", yard_location := none,
          nominal_volume_m3 := none, base_cost_brl := none, client_id := "cl1",
          container_type := "40HC" }
        none none []).used_volume = 0
    ∧ (viewRow
        { id := "c1", container_number := "MSKU1234567", container_code := none,
          bl_number := none, start_date := 0, status := "active", yard_location := none,
          nominal_volume_m3 := none, base_cost_brl := none, client_id := "cl1",
          container_type := "40HC" }
        none none []).total_gross_weight = 0
    ∧ (viewRow
        { id := "c2", container_number := "MSKU7654321", container_code := none,
          bl_number := none, start_date := 0, status := "active", yard_location := none,
          nominal_volume_m3 := none, base_cost_brl := none, client_id := "cl1",
          container_type := "40HC" }
        none none
        [{ container_id := "c2", sku := "SKU1", product_name := "Widget",
           current_quantity := 3, total_volume_m3 := 2, unit_gross_weight_kg := 5 }]
        ).total_gross_weight =
        ((invFor
            { id := "c2", container_number := "MSKU7654321", container_code := none,
              bl_number := none, start_date := 0, status := "active", yard_location := none,
              nominal_volume_m3 := none, base_cost_brl := none, client_id := "cl1",
              container_type := "40HC" }
            [{ container_id := "c2", sku := "SKU1", product_name := "Widget",
               current_quantity := 3, total_volume_m3 := 2, unit_gross_weight_kg := 5 }]).map
          (fun i => i.unit_gross_weight_kg * i.current_quantity)).sum :=
  containers_stats_view_zero_inventory
    { id := "c1", container_number := "MSKU1234567", container_code := none,
      bl_number := none, start_date := 0, status := "active", yard_location := none,
      nominal_volume_m3 := none, base_cost_brl := none, client_id := "cl1",
      container_type := "40HC" }
    { id := "c2", container_number := "MSKU7654321", container_code := none,
      bl_number := none, start_date := 0, status := "active", yard_location := none,
      nominal_volume_m3 := none, base_cost_brl := none, client_id := "cl1",
      container_type := "40HC" }
    none none []
    [{ container_id := "c2", sku := "SKU1", product_name := "Widget",
       current_quantity := 3, total_volume_m3 := 2, unit_gross_weight_kg := 5 }]
    rfl

/-- C3 (counterexample to the claim as stated): the non-empty search string
consisting of a single underscore is interpolated verbatim into the ILIKE
pattern, where it acts as a single-character wildcard; the query therefore
returns the row MSKU1234567 even though neither its container number nor its
client name case-insensitively contains an underscore. -/
theorem search_underscore_wildcard_counterexample :
    applySearch "_"
        [{ id := "c1", container_number := "MSKU1234567", container_code := none,
           bl_number := none, start_date := 0, status := "active", yard_location := none,
           nominal_volume_m3 := none, base_cost_brl := none, client_id := "cl1",
           container_type := "40HC", client_name := some "Acme Ltda",
           container_type_name := none, items_count := 0, used_volume := 0,
           total_gross_weight := 0 }]
      = [{ id := "c1", container_number := "MSKU1234567", container_code := none,
           bl_number := none, start_date := 0, status := "active", yard_location := none,
           nominal_volume_m3 := none, base_cost_brl := none, client_id := "cl1",
           container_type := "40HC", client_name := some "Acme Ltda",
           container_type_name := none, items_count := 0, used_volume := 0,
           total_gross_weight := 0 }]
    ∧ containsCI "MSKU1234567" "_" = false
    ∧ optContainsCI (some "Acme Ltda") "_" = false := by
  refine ⟨?_, ?_, ?_⟩ <;> decide

/-- C3 (amended): with an empty search string neither `fetchContainers`
variant adds a search filter; with a non-empty one every returned row matches
the interpolated ILIKE pattern percent-search-percent case-insensitively —
container number or client name for the view-based variant, container number
alone for the base-table variant — where percent and underscore characters of
the search string act as SQL wildcards; and for a search string free of
wildcard and escape characters the ILIKE match is exactly case-insensitive
substring containment, recovering the original reading. -/
theorem fetchContainers_search_ilike_subset (s s2 : String) (rows : List StatsRow)
    (baseRows : List ContainerRow) (r : StatsRow) (rb : ContainerRow) (hay : String)
    (hs : s ≠ "") (hr : r ∈ applySearch s rows)
    (hrb : rb ∈ applySearchByNumber s baseRows)
    (hlit : s2.data.all isLiteralChar = true) :
    applySearch "" rows = rows
    ∧ applySearchByNumber "" baseRows = baseRows
    ∧ (ilikeContains r.container_number s = true ∨ optIlikeContains r.client_name s = true)
    ∧ ilikeContains rb.container_number s = true
    ∧ ilikeContains hay s2 = containsCI hay s2 := by
  have hb : (s == "") = false := by
    cases hbe : s == "" with
    | false => rfl
    | true => exact absurd (by simpa using hbe) hs
  refine ⟨?_, ?_, ?_, ?_, ilikeContains_eq_containsCI hay s2 hlit⟩
  · simp [applySearch]
  · simp [applySearchByNumber]
  · rw [applySearch, hb] at hr
    simp only [Bool.false_eq_true, if_false] at hr
    have hm := (List.mem_filter.mp hr).2
    rw [matchesSearch] at hm
    exact (Bool.or_eq_true _ _).mp hm
  · rw [applySearchByNumber, hb] at hrb
    simp only [Bool.false_eq_true, if_false] at hrb
    exact (List.mem_filter.mp hrb).2

/-- C3 witness: the wildcard-free search string msk matches the container
number MSKU1234567 in both variants, and its ILIKE match coincides with
case-insensitive substring containment. -/
theorem fetchContainers_search_ilike_subset_witness :
    applySearch ""
        [{ id := "c1", container_number := "MSKU1234567", container_code := none,
           bl_number := none, start_date := 0, status := "active", yard_location := none,
           nominal_volume_m3 := none, base_cost_brl := none, client_id := "cl1",
           container_type := "40HC", client_name := some "Acme Ltda",
           container_type_name := none, items_count := 0, used_volume := 0,
           total_gross_weight := 0 }]
      = [{ id := "c1", container_number := "MSKU1234567", container_code := none,
           bl_number := none, start_date := 0, status := "active", yard_location := none,
           nominal_volume_m3 := none, base_cost_brl := none, client_id := "cl1",
           container_type := "40HC", client_name := some "Acme Ltda",
           container_type_name := none, items_count := 0, used_volume := 0,
           total_gross_weight := 0 }]
    ∧ applySearchByNumber ""
        [{ id := "c1", container_number := "MSKU1234567", container_code := none,
           bl_number := none, start_date := 0, status := "active", yard_location := none,
           nominal_volume_m3 := none, base_cost_brl := none, client_id := "cl1",
           container_type := "40HC" }]
      = [{ id := "c1", container_number := "MSKU1234567", container_code := none,
           bl_number := none, start_date := 0, status := "active", yard_location := none,
           nominal_volume_m3 := none, base_cost_brl := none, client_id := "cl1",
           container_type := "40HC" }]
    ∧ (ilikeContains
        (StatsRow.container_number
          { id := "c1", container_number := "MSKU1234567", container_code := none,
            bl_number := none, start_date := 0, status := "active", yard_location := none,
            nominal_volume_m3 := none, base_cost_brl := none, client_id := "cl1",
            container_type := "40HC", client_name := some "Acme Ltda",
            container_type_name := none, items_count := 0, used_volume := 0,
            total_gross_weight := 0 }) "msk" = true
      ∨ optIlikeContains
          (StatsRow.client_name
            { id := "c1", container_number := "MSKU1234567", container_code := none,
              bl_number := none, start_date := 0, status := "active", yard_location := none,
              nominal_volume_m3 := none, base_cost_brl := none, client_id := "cl1",
              container_type := "40HC", client_name := some "Acme Ltda",
              container_type_name := none, items_count := 0, used_volume := 0,
              total_gross_weight := 0 }) "msk" = true)
    ∧ ilikeContains
        (ContainerRow.container_number
          { id := "c1", container_number := "MSKU1234567", container_code := none,
            bl_number := none, start_date := 0, status := "active", yard_location := none,
            nominal_volume_m3 := none, base_cost_brl := none, client_id := "cl1",
            container_type := "40HC" }) "msk" = true
    ∧ ilikeContains "MSKU1234567" "msk" = containsCI "MSKU1234567" "msk" :=
  fetchContainers_search_ilike_subset "msk" "msk"
    [{ id := "c1", container_number := "MSKU1234567", container_code := none,
       bl_number := none, start_date := 0, status := "active", yard_location := none,
       nominal_volume_m3 := none, base_cost_brl := none, client_id := "cl1",
       container_type := "40HC", client_name := some "Acme Ltda",
       container_type_name := none, items_count := 0, used_volume := 0,
       total_gross_weight := 0 }]
    [{ id := "c1", container_number := "MSKU1234567", container_code := none,
       bl_number := none, start_date := 0, status := "active", yard_location := none,
       nominal_volume_m3 := none, base_cost_brl := none, client_id := "cl1",
       container_type := "40HC" }]
    { id := "c1", container_number := "MSKU1234567", container_code := none,
      bl_number := none, start_date := 0, status := "active", yard_location := none,
      nominal_volume_m3 := none, base_cost_brl := none, client_id := "cl1",
      container_type := "40HC", client_name := some "Acme Ltda",
      container_type_name := none, items_count := 0, used_volume := 0,
      total_gross_weight := 0 }
    { id := "c1", container_number := "MSKU1234567", container_code := none,
      bl_number := none, start_date := 0, status := "active", yard_location := none,
      nominal_volume_m3 := none, base_cost_brl := none, client_id := "cl1",
      container_type := "40HC" }
    "MSKU1234567"
    (by decide) (by decide) (by decide) (by decide)

/-- C4: submitting a container whose number equals an existing row's number
yields the field-level duplicate error attached to the container-number
field — not a generic failure — and the stored rows are unchanged. -/
theorem container_submit_duplicate_number (db : List ContainerRow) (payload : ContainerRow)
    (h : ∃ y ∈ db, y.container_number = payload.container_number) :
    (containerOnSubmit db payload).1 = db
    ∧ (containerOnSubmit db payload).2 =
        SubmitOutcome.fieldError "container_number" "Este número de contêiner já existe." := by
  obtain ⟨y, hy, hnum⟩ := h
  have hany : (db.any (fun z => z.container_number == payload.container_number)) = true :=
    List.any_eq_true.mpr ⟨y, hy, by simp [hnum]⟩
  simp [containerOnSubmit, dbInsertContainer, hany]

/-- C4 witness: inserting a second container with the number MSKU1234567. -/
theorem container_submit_duplicate_number_witness :
    (containerOnSubmit
        [{ id := "c1", container_number := "MSKU1234567", container_code := none,
           bl_number := none, start_date := 0, status := "active", yard_location := none,
           nominal_volume_m3 := none, base_cost_brl := none, client_id := "cl1",
           container_type := "40HC" }]
        { id := "c2", container_number := "MSKU1234567", container_code := none,
          bl_number := none, start_date := 7, status := "active", yard_location := none,
          nominal_volume_m3 := none, base_cost_brl := none, client_id := "cl2",
          container_type := "20GP" }).1
      = [{ id := "c1", container_number := "MSKU1234567", container_code := none,
           bl_number := none, start_date := 0, status := "active", yard_location := none,
           nominal_volume_m3 := none, base_cost_brl := none, client_id := "cl1",
           container_type := "40HC" }]
    ∧ (containerOnSubmit
        [{ id := "c1", container_number := "MSKU1234567", container_code := none,
           bl_number := none, start_date := 0, status := "active", yard_location := none,
           nominal_volume_m3 := none, base_cost_brl := none, client_id := "cl1",
           container_type := "40HC" }]
        { id := "c2", container_number := "MSKU1234567", container_code := none,
          bl_number := none, start_date := 7, status := "active", yard_location := none,
          nominal_volume_m3 := none, base_cost_brl := none, client_id := "cl2",
          container_type := "20GP" }).2
      = SubmitOutcome.fieldError "container_number" "Este número de contêiner já existe." :=
  container_submit_duplicate_number
    [{ id := "c1", container_number := "MSKU1234567", container_code := none,
       bl_number := none, start_date := 0, status := "active", yard_location := none,
       nominal_volume_m3 := none, base_cost_brl := none, client_id := "cl1",
       container_type := "40HC" }]
    { id := "c2", container_number := "MSKU1234567", container_code := none,
      bl_number := none, start_date := 7, status := "active", yard_location := none,
      nominal_volume_m3 := none, base_cost_brl := none, client_id := "cl2",
      container_type := "20GP" }
    ⟨{ id := "c1", container_number := "MSKU1234567", container_code := none,
       bl_number := none, start_date := 0, status := "active", yard_location := none,
       nominal_volume_m3 := none, base_cost_brl := none, client_id := "cl1",
       container_type := "40HC" }, by simp, rfl⟩

/-- C5: submitting a client whose tax identifier, stripped to digits, equals
an existing client's stored tax identifier yields the dedicated
already-registered duplicate error and the stored rows are unchanged. -/
theorem createClient_duplicate_tax_id (db : List ClientRow) (d : CreateClientData)
    (h : ∃ y ∈ db, y.tax_id = stripNonDigits d.tax_id) :
    (createClient db d).1 = db
    ∧ (createClient db d).2 =
        ClientOutcome.duplicateTaxId "Cliente já cadastrado com este CNPJ" := by
  obtain ⟨y, hy, htax⟩ := h
  have hany : (db.any (fun z => z.tax_id == stripNonDigits d.tax_id)) = true :=
    List.any_eq_true.mpr ⟨y, hy, by simp [htax]⟩
  simp [createClient, dbInsertClient, hany]

/-- C5 witness: a masked CNPJ stripping to the stored digits-only value. -/
theorem createClient_duplicate_tax_id_witness :
    (createClient
        [{ name := "Acme Ltda", fantasy_name := none, tax_id := "12345678000199",
           email := none, phone := none, address := none, status := "active" }]
        { name := "Acme Nova", fantasy_name := none, tax_id := "12.345.678/0001-99",
          phone := none, email := none, address := none }).1
      = [{ name := "Acme Ltda", fantasy_name := none, tax_id := "12345678000199",
           email := none, phone := none, address := none, status := "active" }]
    ∧ (createClient
        [{ name := "Acme Ltda", fantasy_name := none, tax_id := "12345678000199",
           email := none, phone := none, address := none, status := "active" }]
        { name := "Acme Nova", fantasy_name := none, tax_id := "12.345.678/0001-99",
          phone := none, email := none, address := none }).2
      = ClientOutcome.duplicateTaxId "Cliente já cadastrado com este CNPJ" :=
  createClient_duplicate_tax_id
    [{ name := "Acme Ltda", fantasy_name := none, tax_id := "12345678000199",
       email := none, phone := none, address := none, status := "active" }]
    { name := "Acme Nova", fantasy_name := none, tax_id := "12.345.678/0001-99",
      phone := none, email := none, address := none }
    ⟨{ name := "Acme Ltda", fantasy_name := none, tax_id := "12345678000199",
       email := none, phone := none, address := none, status := "active" },
     by simp, by decide⟩

/-- C6 (refuting evaluation): the zod client schema runs its min(14) length
check on the raw masked form value, so the CNPJ mask rendering of a 13-digit
input — 17 characters long — passes validation, and the stored digits-only
value has 13 digits, not 14. -/
theorem clientSchema_accepts_13_digit_tax_id :
    parseTaxId "00.000.000/0000-0" = some "0000000000000"
    ∧ (stripNonDigits "00.000.000/0000-0").length = 13 := by
  refine ⟨?_, ?_⟩ <;> decide

/-- C7: when the sort state is the "recent" option (value `created_at`),
`fetchContainers` orders by `start_date` descending whatever the requested
direction; for every other sort column it orders by that column in the
requested direction. -/
theorem fetchContainers_sort_recent_fallback (col dir : String) (h : col ≠ "created_at") :
    applySort "created_at" dir = { column := "start_date", ascending := false }
    ∧ applySort col dir = { column := col, ascending := dir == "asc" } := by
  refine ⟨rfl, ?_⟩
  simp [applySort, h]

/-- C7 witness: sorting by container number ascending while the recent option
ignores the direction. -/
theorem fetchContainers_sort_recent_fallback_witness :
    applySort "created_at" "asc" = { column := "start_date", ascending := false }
    ∧ applySort "container_number" "asc"
      = { column := "container_number", ascending := ("asc" == "asc") } :=
  fetchContainers_sort_recent_fallback "container_number" "asc" (by decide)

/-- C8 (counterexample to the claim as stated): in `NewContainerDialog` the
base cost is a required schema field spread into the payload unchanged, so a
zero base cost — which an empty input coerces to — is sent as `0`, not as an
absent value. -/
theorem dialog_base_cost_zero_not_null :
    (dialogPayloadNumbers
        { measurement_day := none, nominal_volume_m3 := none,
          base_cost_brl := 0 }).base_cost_brl = some 0
    ∧ some (0 : ℚ) ≠ (none : Option ℚ) := by
  exact ⟨rfl, by simp⟩

/-- C8 (amended): in the full-page form all three optional numeric fields
(measurement day, nominal volume, base cost) are sent as null exactly when
empty or zero and are never sent as `0`; in the dialog form this holds for
measurement day and nominal volume, while the required base cost is passed
through unchanged. -/
theorem container_form_numbers_normalized (d : PageFormNumbers) (e : DialogFormNumbers) :
    ((containerNewPayloadNumbers d).measurement_day = none ↔
      d.measurement_day = none ∨ d.measurement_day = some 0)
    ∧ ((containerNewPayloadNumbers d).nominal_volume_m3 = none ↔
      d.nominal_volume_m3 = none ∨ d.nominal_volume_m3 = some 0)
    ∧ ((containerNewPayloadNumbers d).base_cost_brl = none ↔
      d.base_cost_brl = none ∨ d.base_cost_brl = some 0)
    ∧ (containerNewPayloadNumbers d).measurement_day ≠ some 0
    ∧ (containerNewPayloadNumbers d).nominal_volume_m3 ≠ some 0
    ∧ (containerNewPayloadNumbers d).base_cost_brl ≠ some 0
    ∧ ((dialogPayloadNumbers e).measurement_day = none ↔
      e.measurement_day = none ∨ e.measurement_day = some 0)
    ∧ ((dialogPayloadNumbers e).nominal_volume_m3 = none ↔
      e.nominal_volume_m3 = none ∨ e.nominal_volume_m3 = some 0)
    ∧ (dialogPayloadNumbers e).measurement_day ≠ some 0
    ∧ (dialogPayloadNumbers e).nominal_volume_m3 ≠ some 0
    ∧ (dialogPayloadNumbers e).base_cost_brl = some e.base_cost_brl :=
  ⟨orNullNum_eq_none_iff _, orNullNum_eq_none_iff _, orNullNum_eq_none_iff _,
   orNullNum_ne_some_zero _, orNullNum_ne_some_zero _, orNullNum_ne_some_zero _,
   orNullNum_eq_none_iff _, orNullNum_eq_none_iff _,
   orNullNum_ne_some_zero _, orNullNum_ne_some_zero _, rfl⟩

/-- C9: in the container detail flow, an identity whose role restricts it to
one client and whose assigned client differs from the fetched container's
client is denied after the fetch: the record is discarded rather than stored,
the inventory and event lists stay empty, a denial notice is shown and the
user is redirected to the container list. -/
theorem container_details_operator_denied (user : UserCtx) (c : FetchedContainer)
    (inv : List InventoryItem) (evs : List String)
    (hrole : user.role = "operator") (hmi : c.client_id ≠ user.client_id) :
    (fetchDetails user c inv evs).container = none
    ∧ (fetchDetails user c inv evs).inventory = []
    ∧ (fetchDetails user c inv evs).events = []
    ∧ (fetchDetails user c inv evs).toasts = ["Acesso negado a este contêiner"]
    ∧ (fetchDetails user c inv evs).navigatedTo = some "/containers" := by
  have hc : (user.role == "operator" && c.client_id != user.client_id) = true := by
    simp [hrole, bne_iff_ne, hmi]
  simp [fetchDetails, hc]

/-- C9 witness: an operator assigned to clientA opening a container that
belongs to clientB. -/
theorem container_details_operator_denied_witness :
    (fetchDetails { role := "operator", client_id := "clientA" }
        { id := "k1", client_id := "clientB", client_name := some "B Corp" }
        [{ container_id := "k1", sku := "SKU1", product_name := "Widget",
           current_quantity := 1, total_volume_m3 := 1, unit_gross_weight_kg := 1 }]
        ["gate-in"]).container = none
    ∧ (fetchDetails { role := "operator", client_id := "clientA" }
        { id := "k1", client_id := "clientB", client_name := some "B Corp" }
        [{ container_id := "k1", sku := "SKU1", product_name := "Widget",
           current_quantity := 1, total_volume_m3 := 1, unit_gross_weight_kg := 1 }]
        ["gate-in"]).inventory = []
    ∧ (fetchDetails { role := "operator", client_id := "clientA" }
        { id := "k1", client_id := "clientB", client_name := some "B Corp" }
        [{ container_id := "k1", sku := "SKU1", product_name := "Widget",
           current_quantity := 1, total_volume_m3 := 1, unit_gross_weight_kg := 1 }]
        ["gate-in"]).events = []
    ∧ (fetchDetails { role := "operator", client_id := "clientA" }
        { id := "k1", client_id := "clientB", client_name := some "B Corp" }
        [{ container_id := "k1", sku := "SKU1", product_name := "Widget",
           current_quantity := 1, total_volume_m3 := 1, unit_gross_weight_kg := 1 }]
        ["gate-in"]).toasts = ["Acesso negado a este contêiner"]
    ∧ (fetchDetails { role := "operator", client_id := "clientA" }
        { id := "k1", client_id := "clientB", client_name := some "B Corp" }
        [{ container_id := "k1", sku := "SKU1", product_name := "Widget",
           current_quantity := 1, total_volume_m3 := 1, unit_gross_weight_kg := 1 }]
        ["gate-in"]).navigatedTo = some "/containers" :=
  container_details_operator_denied { role := "operator", client_id := "clientA" }
    { id := "k1", client_id := "clientB", client_name := some "B Corp" }
    [{ container_id := "k1", sku := "SKU1", product_name := "Widget",
       current_quantity := 1, total_volume_m3 := 1, unit_gross_weight_kg := 1 }]
    ["gate-in"] rfl (by decide)

/-- C10: the container card computes the occupancy as used volume over
nominal volume times 100 exactly when the nominal volume is present and
strictly positive (the divisor being nonzero there); a missing or zero
nominal volume yields occupancy 0 without entering the division branch. -/
theorem container_card_occupancy_guard (u v : ℚ) (hv : 0 < v) :
    occupancyPercent none u = 0
    ∧ occupancyPercent (some 0) u = 0
    ∧ occupancyPercent (some v) u = u / v * 100
    ∧ v ≠ 0 := by
  refine ⟨?_, ?_, ?_, ne_of_gt hv⟩
  · simp [occupancyPercent, coalesce]
  · simp [occupancyPercent, coalesce]
  · simp [occupancyPercent, coalesce, hv]

/-- C10 witness: a 2 cubic meter container holding 50 units of used volume
percentage input, and the degenerate null and zero nominal volumes. -/
theorem container_card_occupancy_guard_witness :
    occupancyPercent none 50 = 0
    ∧ occupancyPercent (some 0) 50 = 0
    ∧ occupancyPercent (some 2) 50 = 50 / 2 * 100
    ∧ (2 : ℚ) ≠ 0 :=
  container_card_occupancy_guard 50 2 (by norm_num)

end ContainerApp
